import Mathlib

/-!
# Verification of the spreadsheet-gateway server

Shallow embedding of the request handlers of `src/server.js` (an Express
backend proxying a Google spreadsheet behind bearer-token auth and a 30s
response cache).  The file concatenates three near-duplicate server
variants; the names below follow the second (Firebase) variant, which is
the one wiring the `authenticateToken` middleware into every data route.
The first variant, whose routes attach no middleware, is modelled
separately as `performanceDataV1`.

Spreadsheet cells arrive as loosely typed JavaScript values; they are
modelled by `JSVal` (undefined, number, string).  JavaScript numbers are
modelled as rationals: the handlers under study only parse, compare with
zero, round, and print them, and no claim depends on binary floating-point
rounding.  `JSNum` models the result of a JS numeric computation — NaN,
an infinity, or a finite value — and time is measured in whole seconds.
-/

namespace Server

/-! ## JavaScript value model -/

/-- A loosely typed spreadsheet cell / JS value: `undefined` models
`undefined` (missing cell), numbers are modelled as rationals. -/
inductive JSVal where
  | undefined
  | num (v : Rat)
  | str (s : String)
deriving DecidableEq, Repr

/-- JS truthiness of a cell value: `undefined`, `0` and `""` are falsy. -/
def JSVal.truthy : JSVal → Bool
  | .undefined => false
  | .num v => v != 0
  | .str s => s != ""

/-- JS `a || b` on cell values. -/
def jsOr (a b : JSVal) : JSVal := if a.truthy then a else b

/-- JS `a || b` where `a` is an optional string (absent or present) and
`b` a string: the empty string is falsy and falls through to `b`. -/
def jsOrString (a : Option String) (b : String) : String :=
  match a with
  | none => b
  | some s => if s = "" then b else s

/-- `row[i]`: JS array indexing yields `undefined` out of range. -/
def cellAt (row : List JSVal) (i : Nat) : JSVal := row.getD i .undefined

/-- `row?.[i]` through an optional row (`userData?.[6]`). -/
def optRowCell (r : Option (List JSVal)) (i : Nat) : JSVal :=
  match r with
  | none => .undefined
  | some row => cellAt row i

/-! ## Decimal digits and string conversion

`natToDigits` renders a natural number in decimal.  It recurses on a fuel
argument (one unit per digit, `n + 1` is always enough) so that it stays
structurally recursive and evaluates inside the kernel. -/

/-- The decimal digit character for `n < 10`. -/
def natDigitChar (n : Nat) : Char := Char.ofNat (48 + n)

/-- Decimal rendering with explicit fuel; `[]` only on fuel exhaustion. -/
def natToDigitsAux : Nat → Nat → List Char
  | 0, _ => []
  | fuel + 1, n =>
    if n < 10 then [natDigitChar n]
    else natToDigitsAux fuel (n / 10) ++ [natDigitChar (n % 10)]

/-- Decimal digit characters of `n` (most significant first). -/
def natToDigits (n : Nat) : List Char := natToDigitsAux (n + 1) n

/-- Decimal string of an integer. -/
def intToString (i : Int) : String :=
  if i < 0 then String.mk ('-' :: natToDigits i.natAbs)
  else String.mk (natToDigits i.natAbs)

/-- JS converts a numeric cell to its decimal string.  The exact double
formatting is abstracted as the rational's canonical form; the handlers
under study only test the resulting string for emptiness. -/
def ratToString (q : Rat) : String :=
  if q.den = 1 then intToString q.num
  else intToString q.num ++ "/" ++ String.mk (natToDigits q.den)

/-- `v?.toString() || dflt` — optional chaining yields `undefined` on a
missing cell, and an empty string result is falsy. -/
def jsToStringOr (v : JSVal) (dflt : String) : String :=
  match v with
  | .undefined => dflt
  | .str s => if s = "" then dflt else s
  | .num q => if ratToString q = "" then dflt else ratToString q

/-! ## `parseFloat` and JS numbers -/

/-- The result of a JS numeric computation: NaN, a signed infinity, or
a finite value (modelled as a rational). -/
inductive JSNum where
  | nan
  | inf (neg : Bool)
  | val (q : Rat)
deriving DecidableEq, Repr

/-- Value of a list of decimal digit characters. -/
def digitsVal (l : List Char) : Nat :=
  l.foldl (fun a c => a * 10 + (c.toNat - 48)) 0

/-- Strip an optional leading sign; returns whether it was `-`. -/
def parseSign : List Char → Bool × List Char
  | '-' :: rest => (true, rest)
  | '+' :: rest => (false, rest)
  | cs => (false, cs)

/-- Apply a trailing exponent part (`e`/`E` already consumed); ignored
when no exponent digits follow, as in JS. -/
def applyExp (mag : Rat) (r : List Char) : Rat :=
  let p := parseSign r
  let eDigits := p.2.takeWhile Char.isDigit
  if eDigits.isEmpty then mag
  else if p.1 then mag / (10 : Rat) ^ digitsVal eDigits
  else mag * (10 : Rat) ^ digitsVal eDigits

/-- The code points `parseFloat` skips before parsing: WhiteSpace (tab,
vertical tab, form feed, space, no-break space, BOM, the Unicode space
separators) and LineTerminator (LF, CR, LS, PS). -/
def jsWhitespace (c : Char) : Bool :=
  c.toNat == 9 || c.toNat == 10 || c.toNat == 11 || c.toNat == 12 ||
  c.toNat == 13 || c.toNat == 32 || c.toNat == 160 || c.toNat == 0x1680 ||
  (0x2000 ≤ c.toNat && c.toNat ≤ 0x200A) ||
  c.toNat == 0x2028 || c.toNat == 0x2029 || c.toNat == 0x202F ||
  c.toNat == 0x205F || c.toNat == 0x3000 || c.toNat == 0xFEFF

/-- Does the character list begin with the `Infinity` keyword? -/
def isInfinityLiteral (cs : List Char) : Bool :=
  cs.take 8 == ['I', 'n', 'f', 'i', 'n', 'i', 't', 'y']

/-- JS `parseFloat` on a string: skip leading whitespace, optional sign,
then either the `Infinity` literal or the longest numeric prefix
(integer digits, optional fraction, optional exponent); NaN when nothing
numeric is found. -/
def parseFloatString (s : String) : JSNum :=
  let cs0 := s.toList.dropWhile jsWhitespace
  let p := parseSign cs0
  if isInfinityLiteral p.2 then .inf p.1
  else
    let intDigits := p.2.takeWhile Char.isDigit
    let cs2 := p.2.dropWhile Char.isDigit
    let fracPair : List Char × List Char :=
      match cs2 with
      | '.' :: r => (r.takeWhile Char.isDigit, r.dropWhile Char.isDigit)
      | _ => ([], cs2)
    if intDigits.isEmpty && fracPair.1.isEmpty then .nan
    else
      let mag : Rat :=
        (digitsVal intDigits : Rat) +
          (digitsVal fracPair.1 : Rat) / (10 : Rat) ^ fracPair.1.length
      let mag :=
        match fracPair.2 with
        | 'e' :: r => applyExp mag r
        | 'E' :: r => applyExp mag r
        | _ => mag
      .val (if p.1 then -mag else mag)

/-- JS `parseFloat` on a cell value.  A numeric argument round-trips
through its string form unchanged; `undefined` gives NaN. -/
def parseFloatJS : JSVal → JSNum
  | .undefined => .nan
  | .num v => .val v
  | .str s => parseFloatString s

/-- `Math.round`: nearest integer, ties toward plus infinity; NaN and
the infinities pass through. -/
def roundJS : JSNum → JSNum
  | .nan => .nan
  | .inf b => .inf b
  | .val q => .val (((q + 1 / 2).floor : Int) : Rat)

/-- The two decimal digit characters of `n % 100`, zero-padded. -/
def padTwoDigits (n : Nat) : List Char :=
  [natDigitChar (n / 10 % 10), natDigitChar (n % 10)]

/-- `Number.prototype.toFixed(2)`: NaN prints as `"NaN"` and infinities
as `"Infinity"`/`"-Infinity"`; otherwise the sign is split off and, for
a magnitude at or above 10^21, `toFixed` falls back to plain
number-to-string conversion (exponential double formatting abstracted
as the canonical rational rendering), while below it the magnitude is
rounded to the nearest hundredth, ties toward the larger value, and
rendered fixed-point. -/
def toFixed2 : JSNum → String
  | .nan => "NaN"
  | .inf b => if b then "-Infinity" else "Infinity"
  | .val q =>
    let sgn : List Char := if q < 0 then ['-'] else []
    let x : Rat := if q < 0 then -q else q
    if (10 : Rat) ^ 21 ≤ x then String.mk sgn ++ ratToString x
    else
      let n : Nat := ((x * 100 + 1 / 2).floor).toNat
      String.mk (sgn ++ natToDigits (n / 100) ++ '.' :: padTwoDigits (n % 100))

/-- A string ending in a dot followed by exactly two digits, with a
nonempty part before the dot: the shape `toFixed(2)` output is expected
to have. -/
def twoDecimalFormat (s : String) : Bool :=
  match s.toList.reverse with
  | d0 :: d1 :: '.' :: _ :: _ => d0.isDigit && d1.isDigit
  | _ => false

/-! ## String splitting (JS `split` with a one-character separator) -/

/-- Split a character list on every occurrence of `sep`, keeping empty
segments — the semantics of JS `String.prototype.split(sep)`. -/
def splitCharsOn (sep : Char) : List Char → List (List Char)
  | [] => [[]]
  | c :: rest =>
    let r := splitCharsOn sep rest
    if c = sep then [] :: r
    else
      match r with
      | [] => [[c]]
      | g :: gs => (c :: g) :: gs

/-- JS `s.split(sep)` for a single-character separator. -/
def splitOnChar (s : String) (sep : Char) : List String :=
  (splitCharsOn sep s.toList).map String.mk

/-! ## HTTP results and authentication -/

/-- An endpoint outcome: a JSON body with a status, or a JSON error
object with a status. -/
inductive HttpResult (α : Type) where
  | ok (status : Nat) (body : α)
  | err (status : Nat) (error : String)
deriving DecidableEq, Repr

/-- Claims decoded from a verified Firebase ID token. -/
structure DecodedToken where
  name : Option String
  email : String
  phoneNumber : Option String
  uid : String
deriving DecidableEq, Repr

/-- `req.user` as built by the middleware. -/
structure AuthUser where
  email : String
  displayName : String
  uid : String
deriving DecidableEq, Repr

/-- `authHeader && authHeader.split(' ')[1]` followed by the `!token`
falsiness check: `none` exactly when the handler answers 401. -/
def extractToken : Option String → Option String
  | none => none
  | some h =>
    match (splitOnChar h ' ').get? 1 with
    | none => none
    | some t => if t = "" then none else some t

/-- `email.split('@')[0]`. -/
def emailLocalPart (email : String) : String :=
  (splitOnChar email '@').getD 0 ""

/-- `{ email, displayName: name || email.split('@')[0], uid }`. -/
def decodedToUser (d : DecodedToken) : AuthUser :=
  { email := d.email
    displayName := jsOrString d.name (emailLocalPart d.email)
    uid := d.uid }

/-- The `authenticateToken` middleware: 401 on a missing/empty bearer
token, 403 when the identity provider (`verify`) rejects it, otherwise
the decoded user.  The provider is external and passed as a function. -/
def authCheck (verify : String → Option DecodedToken) (header : Option String) :
    Except (Nat × String) AuthUser :=
  match extractToken header with
  | none => .error (401, "No token provided")
  | some t =>
    match verify t with
    | none => .error (403, "Invalid token")
    | some d => .ok (decodedToUser d)

/-- Run a handler behind the `authenticateToken` middleware. -/
def withAuth (verify : String → Option DecodedToken) (header : Option String)
    (handler : AuthUser → HttpResult α) : HttpResult α :=
  match authCheck verify header with
  | .error (s, m) => .err s m
  | .ok u => handler u

/-! ## Response cache (NodeCache, stdTTL 30) -/

/-- The formatted performance snapshot (second variant): `toFixed(2)`
strings for the weekly fields, `Math.round` numbers (NaN or an infinity
possible) for the monthly/yearly fields. -/
structure PerfData where
  thisWeek : String
  lastWeek : String
  monthly : JSNum
  yearly : JSNum
deriving DecidableEq, Repr

/-- The cache as seen through its single key `performance-data`: an
optional value with an absolute expiry timestamp (seconds). -/
structure CacheState where
  entry : Option (PerfData × Nat)
deriving DecidableEq, Repr

/-- `cache.get('performance-data')`: a stored entry is served while
`now ≤ expiry` and reported as a miss afterwards (NodeCache expires an
entry once its deadline is strictly in the past). -/
def cacheGet (now : Nat) (c : CacheState) : Option PerfData :=
  match c.entry with
  | none => none
  | some ve => if ve.2 < now then none else some ve.1

/-- `cache.set('performance-data', v, ttl)`. -/
def cacheSet (now : Nat) (v : PerfData) (ttl : Nat) (_c : CacheState) : CacheState :=
  { entry := some (v, now + ttl) }

/-! ## GET /api/performance-data (second variant, cached) -/

/-- `formattedResult` built from `response.data.values[0]`. -/
def formatPerfRow (row0 : List JSVal) : PerfData :=
  { thisWeek := toFixed2 (parseFloatJS (jsOr (cellAt row0 0) (.num 0)))
    lastWeek := toFixed2 (parseFloatJS (jsOr (cellAt row0 2) (.num 0)))
    monthly := roundJS (parseFloatJS (jsOr (cellAt row0 4) (.num 0)))
    yearly := roundJS (parseFloatJS (jsOr (cellAt row0 6) (.num 0))) }

/-- Everything one request to the endpoint produces: the response, the
cache left behind, and whether a downstream spreadsheet read was
issued. -/
structure PerfOutcome where
  response : HttpResult PerfData
  cacheAfter : CacheState
  downstreamCalled : Bool
deriving DecidableEq, Repr

/-- The try/catch body of the performance-data handler.  `fetch` is the
downstream read, consulted only on a cache miss: `Except.error` models a
thrown spreadsheet error (carrying `error.message`), `Except.ok none` a
response without a `values` array.  A missing `values[0]` row throws
`'No data found in spreadsheet'`, and the catch block performs a second
`cache.get` (on the same state and clock) before answering 500. -/
def performanceDataCore (now : Nat) (c : CacheState)
    (fetch : Except String (Option (List (List JSVal)))) : PerfOutcome :=
  match cacheGet now c with
  | some v => ⟨.ok 200 v, c, false⟩
  | none =>
    match fetch with
    | .error msg =>
      match cacheGet now c with
      | some v => ⟨.ok 200 v, c, true⟩
      | none =>
        ⟨.err 500 (if msg = "" then "Failed to fetch performance data" else msg), c, true⟩
    | .ok values =>
      match values.bind (fun rows => rows[0]?) with
      | none =>
        match cacheGet now c with
        | some v => ⟨.ok 200 v, c, true⟩
        | none => ⟨.err 500 "No data found in spreadsheet", c, true⟩
      | some row0 =>
        let formatted := formatPerfRow row0
        ⟨.ok 200 formatted, cacheSet now formatted 30 c, true⟩

/-- `GET /api/performance-data` behind the middleware; an authorization
failure leaves the cache untouched and issues no downstream read. -/
def performanceDataEndpoint (verify : String → Option DecodedToken)
    (header : Option String) (now : Nat) (c : CacheState)
    (fetch : Except String (Option (List (List JSVal)))) : PerfOutcome :=
  match authCheck verify header with
  | .error (s, m) => ⟨.err s m, c, false⟩
  | .ok _ => performanceDataCore now c fetch

/-! ## GET /api/performance-data (first variant, no middleware) -/

/-- One card of the first variant's response array. -/
structure PerfCard where
  title : String
  value : JSVal
  change : JSVal
deriving DecidableEq, Repr

/-- The first server variant's performance-data route.  No
authentication middleware is registered on it, so the `Authorization`
header is never consulted; fewer than two returned rows yield 404. -/
def performanceDataV1 (_authHeader : Option String)
    (fetch : Except Unit (Option (List (List JSVal)))) : HttpResult (List PerfCard) :=
  match fetch with
  | .error _ => .err 500 "Failed to fetch performance data"
  | .ok values =>
    let rows := values.getD []
    if rows.length < 2 then .err 404 "No data found in spreadsheet"
    else
      .ok 200
        [ ⟨"This Week PNL", cellAt (rows.getD 1 []) 0, cellAt (rows.getD 0 []) 0⟩,
          ⟨"Last Week PNL", cellAt (rows.getD 1 []) 1, cellAt (rows.getD 0 []) 1⟩,
          ⟨"Monthly PNL", cellAt (rows.getD 1 []) 2, cellAt (rows.getD 0 []) 2⟩,
          ⟨"Yearly PNL", cellAt (rows.getD 1 []) 3, cellAt (rows.getD 0 []) 3⟩ ]

/-! ## GET /api/verify-token -/

/-- `GET /api/verify-token`: echoes the decoded identity. -/
def verifyTokenEndpoint (verify : String → Option DecodedToken)
    (header : Option String) : HttpResult AuthUser :=
  withAuth verify header (fun u => .ok 200 u)

/-! ## GET /api/trade-history -/

/-- A shaped trade record. -/
structure Trade where
  timestamp : JSVal
  symbol : String
  direction : String
  pnl : JSNum
deriving DecidableEq, Repr

/-- The per-row shaping step of the trade-history handler: defaults
`'GOLD'`/`'BUY'` for missing or empty symbol/direction, and
`isNaN(pnl) ? 0 : pnl` for the parsed pnl cell (infinities pass the
`isNaN` guard). -/
def shapeTrade (row : List JSVal) : Trade :=
  { timestamp := cellAt row 0
    symbol := jsToStringOr (cellAt row 1) "GOLD"
    direction := jsToStringOr (cellAt row 2) "BUY"
    pnl :=
      match parseFloatJS (jsOr (cellAt row 3) (.num 0)) with
      | .nan => .val 0
      | p => p }

/-- The post-shaping validation filter; the trailing `true` models
`typeof trade.pnl === 'number'`, which always holds (NaN included). -/
def tradeKeep (t : Trade) : Bool :=
  t.timestamp.truthy && (t.symbol != "") && (t.direction != "") && true

/-- The trade-history row pipeline: keep rows with at least 4 cells,
shape them, drop shaped trades failing the validation filter, and
reverse (most recent first).  A missing `values` array yields `[]`. -/
def tradeHistoryCore (values : Option (List (List JSVal))) : List Trade :=
  match values with
  | none => []
  | some rows =>
    (((rows.filter (fun r => r.length ≥ 4)).map shapeTrade).filter tradeKeep).reverse

/-- `GET /api/trade-history` behind the middleware. -/
def tradeHistoryEndpoint (verify : String → Option DecodedToken)
    (header : Option String)
    (fetch : Except Unit (Option (List (List JSVal)))) : HttpResult (List Trade) :=
  withAuth verify header fun _ =>
    match fetch with
    | .error _ => .err 500 "Failed to fetch trade history"
    | .ok values => .ok 200 (tradeHistoryCore values)

/-! ## GET /api/pnl-data (second variant) -/

/-- One (date, pnl) pair of the pnl-data response; `pnl` is the
`toFixed(2)` string. -/
structure PnlEntry where
  date : JSVal
  pnl : String
deriving DecidableEq, Repr

/-- The per-row shaping of the pnl-data handler. -/
def pnlShape (row : List JSVal) : PnlEntry :=
  { date := cellAt row 0
    pnl := toFixed2 (parseFloatJS (jsOr (cellAt row 3) (.num 0))) }

/-- The filtered and mapped pnl list before the `slice(-20)`. -/
def pnlFull (rows : List (List JSVal)) : List PnlEntry :=
  (rows.filter (fun r => (cellAt r 0).truthy && (cellAt r 3 != JSVal.undefined))).map pnlShape

/-- JS `slice(-n)`: the last `n` elements (all of them when shorter). -/
def sliceLast (n : Nat) (l : List α) : List α := l.drop (l.length - n)

/-- The pnl-data row pipeline: filter, shape, keep the last 20. -/
def pnlDataCore (values : Option (List (List JSVal))) : List PnlEntry :=
  match values with
  | none => []
  | some rows => sliceLast 20 (pnlFull rows)

/-- `GET /api/pnl-data` behind the middleware; a thrown error carries
its provider code, mapped to 429 or 500. -/
def pnlDataEndpoint (verify : String → Option DecodedToken)
    (header : Option String)
    (fetch : Except Nat (Option (List (List JSVal)))) : HttpResult (List PnlEntry) :=
  withAuth verify header fun _ =>
    match fetch with
    | .error code =>
      if code = 429 then .err 429 "Rate limit exceeded" else .err 500 "Internal server error"
    | .ok values => .ok 200 (pnlDataCore values)

/-! ## GET /api/pnl-data (first variant, no middleware) -/

/-- One pair of the first variant's pnl-data response: the pnl field is
a raw JS number, or `null` (modelled `none`) for a falsy pnl cell. -/
structure PnlEntryV1 where
  date : JSVal
  pnl : Option JSNum
deriving DecidableEq, Repr

/-- The first server variant's pnl-data route.  No authentication
middleware is registered on it and the sheet name comes from the query
string (it only selects the fetched range, abstracted by `fetch`).
Every returned row is mapped to `{date: row[0], pnl: row[3] ?
parseFloat(row[3]) : null}` — no filtering, no `slice(-20)`, no
`toFixed` formatting. -/
def pnlDataV1 (_authHeader : Option String) (_sheetQuery : Option String)
    (fetch : Except Unit (Option (List (List JSVal)))) : HttpResult (List PnlEntryV1) :=
  match fetch with
  | .error _ => .err 500 "Failed to fetch PNL data"
  | .ok values =>
    match values with
    | none => .ok 200 []
    | some rows =>
      .ok 200 (rows.map (fun row =>
        { date := cellAt row 0
          pnl :=
            if (cellAt row 3).truthy then some (parseFloatJS (cellAt row 3)) else none }))

/-! ## Balance sheet: lookup, upsert, wallet -/

/-- `row[1] === email`: the strict comparison of the email column. -/
def emailMatches (e : String) (row : List JSVal) : Bool :=
  cellAt row 1 == JSVal.str e

/-- Number of balance rows whose email column equals `e`. -/
def emailCount (e : String) (sheet : List (List JSVal)) : Nat :=
  (sheet.filter (emailMatches e)).length

/-- The user data handed to `updateUserBalanceSheet`. -/
structure UpsertInput where
  displayName : Option String
  email : String
  phoneNumber : Option String
deriving DecidableEq, Repr

/-- The fresh balance row: `displayName || ''`, the email, the phone,
then four zero numeric fields (deposit, pnl%, earnings, balance). -/
def newRow (u : UpsertInput) : List JSVal :=
  [ .str (jsOrString u.displayName ""),
    .str u.email,
    .str (jsOrString u.phoneNumber ""),
    .num 0, .num 0, .num 0, .num 0 ]

/-- `updateUserBalanceSheet`: linear scan of `User-Balance!A2:G` by
email column, appending `newRow` only when no row matched
(`userIndex === -1`); otherwise the sheet is left as it was. -/
def updateUserBalanceSheet (u : UpsertInput) (sheet : List (List JSVal)) :
    List (List JSVal) :=
  match sheet.findIdx? (emailMatches u.email) with
  | none => sheet ++ [newRow u]
  | some _ => sheet

/-- The wallet payload; the numeric fields are raw `parseFloat` results
(NaN possible, no `isNaN` guard here). -/
structure WalletData where
  userEmail : String
  balance : JSNum
  earnings : JSNum
deriving DecidableEq, Repr

/-- The wallet-data lookup: find the first balance row for the
authenticated email and coerce columns 6/5 with `parseFloat(x || 0)`;
a missing `values` array short-circuits to zeros. -/
def walletDataCore (userEmail : String)
    (values : Option (List (List JSVal))) : WalletData :=
  match values with
  | none => { userEmail := userEmail, balance := .val 0, earnings := .val 0 }
  | some rows =>
    let userData := rows.find? (emailMatches userEmail)
    { userEmail := userEmail
      balance := parseFloatJS (jsOr (optRowCell userData 6) (.num 0))
      earnings := parseFloatJS (jsOr (optRowCell userData 5) (.num 0)) }

/-- `GET /api/wallet-data` behind the middleware. -/
def walletDataEndpoint (verify : String → Option DecodedToken)
    (header : Option String)
    (fetch : Except Unit (Option (List (List JSVal)))) : HttpResult WalletData :=
  withAuth verify header fun u =>
    match fetch with
    | .error _ => .err 500 "Failed to fetch wallet data"
    | .ok values => .ok 200 (walletDataCore u.email values)

/-! ## POST /api/signup and POST /api/login/google -/

/-- The signup request body. -/
structure SignupBody where
  email : String
  displayName : Option String
  phoneNumber : Option String
deriving DecidableEq, Repr

/-- `POST /api/signup`: behind the middleware, rejects a body email
differing from the token email (403), otherwise upserts the balance
row.  Returns the response together with the sheet state afterwards. -/
def signupEndpoint (verify : String → Option DecodedToken)
    (header : Option String) (body : SignupBody) (sheet : List (List JSVal)) :
    HttpResult String × List (List JSVal) :=
  match authCheck verify header with
  | .error (s, m) => (.err s m, sheet)
  | .ok u =>
    if u.email ≠ body.email then
      (.err 403 "Token email does not match provided email", sheet)
    else
      (.ok 200 "User created successfully",
        updateUserBalanceSheet ⟨body.displayName, body.email, body.phoneNumber⟩ sheet)

/-- `POST /api/login/google`: a missing or empty `idToken` is 400, a
rejected one 500; on success the balance row is upserted and a custom
token minted (`mkCustomToken`, external). -/
def googleLoginEndpoint (verifyId : String → Option DecodedToken)
    (mkCustomToken : String → String) (idToken : Option String)
    (sheet : List (List JSVal)) : HttpResult String × List (List JSVal) :=
  match idToken with
  | none => (.err 400 "No ID token provided", sheet)
  | some t =>
    if t = "" then (.err 400 "No ID token provided", sheet)
    else
      match verifyId t with
      | none => (.err 500 "Failed to authenticate with Google", sheet)
      | some d =>
        (.ok 200 (mkCustomToken d.uid),
          updateUserBalanceSheet ⟨d.name, d.email, d.phoneNumber⟩ sheet)

/-! ## Helper lemmas -/

/-- Cache hit: the cached value is served, the cache is untouched, and
no downstream read happens. -/
theorem performanceDataCore_hit (now : Nat) (c : CacheState) (v : PerfData)
    (h : cacheGet now c = some v) (fetch : Except String (Option (List (List JSVal)))) :
    performanceDataCore now c fetch = ⟨.ok 200 v, c, false⟩ := by
  unfold performanceDataCore
  rw [h]

/-- Cache miss with a successful nonempty fetch: the formatted first row
is served and cached for 30 seconds. -/
theorem performanceDataCore_success (now : Nat) (c : CacheState)
    (h : cacheGet now c = none) (rows : List (List JSVal)) (row0 : List JSVal)
    (hrow : rows[0]? = some row0) :
    performanceDataCore now c (.ok (some rows))
      = ⟨.ok 200 (formatPerfRow row0), cacheSet now (formatPerfRow row0) 30 c, true⟩ := by
  unfold performanceDataCore
  rw [h]
  simp [hrow]

/-- Cache miss with a failing fetch: the catch block finds the same
miss again and answers 500. -/
theorem performanceDataCore_error (now : Nat) (c : CacheState) (msg : String)
    (h : cacheGet now c = none) :
    performanceDataCore now c (.error msg)
      = ⟨.err 500 (if msg = "" then "Failed to fetch performance data" else msg), c, true⟩ := by
  unfold performanceDataCore
  rw [h]

/-- Any cache miss issues a downstream read, whatever the fetch does. -/
theorem performanceDataCore_miss_downstream (now : Nat) (c : CacheState)
    (fetch : Except String (Option (List (List JSVal)))) (h : cacheGet now c = none) :
    (performanceDataCore now c fetch).downstreamCalled = true := by
  unfold performanceDataCore
  rw [h]
  rcases fetch with msg | values
  · rfl
  · rcases hv : values.bind (fun rows => rows[0]?) with _ | row0 <;> simp [hv]

/-- Reading back through `cacheSet` hits within the TTL and misses
strictly after it. -/
theorem cacheGet_cacheSet (t t' ttl : Nat) (v : PerfData) (c : CacheState) :
    cacheGet t' (cacheSet t v ttl c) = if t + ttl < t' then none else some v := rfl

/-! ## Shared concrete instances for witnesses -/

/-- A provider accepting every token as the user `a@b`. -/
def demoVerify : String → Option DecodedToken := fun _ => some ⟨none, "a@b", none, "u1"⟩

/-- The `req.user` the middleware builds from `demoVerify`. -/
def demoUser : AuthUser := ⟨"a@b", "a", "u1"⟩

/-- A well-formed bearer header. -/
def demoHeader : Option String := some "Bearer x"

/-! ## Claims -/

/-- C1 (amended): in the server variants that wire the
`authenticateToken` middleware into their routes, every request to
verify-token, performance-data, trade-history, pnl-data, wallet-data or
signup whose Authorization header carries no bearer token is answered
401, and one whose token the provider rejects is answered 403; in both
cases the response is the bare error object — independent of any fetch
result, cache state or sheet content, so no spreadsheet data is
returned, the cache is untouched, and no downstream read is issued. -/
theorem c1_auth_guard (verify : String → Option DecodedToken) (header : Option String) :
    (extractToken header = none →
      verifyTokenEndpoint verify header = .err 401 "No token provided"
      ∧ (∀ now c fetch, performanceDataEndpoint verify header now c fetch
          = ⟨.err 401 "No token provided", c, false⟩)
      ∧ (∀ fetch, tradeHistoryEndpoint verify header fetch = .err 401 "No token provided")
      ∧ (∀ fetch, pnlDataEndpoint verify header fetch = .err 401 "No token provided")
      ∧ (∀ fetch, walletDataEndpoint verify header fetch = .err 401 "No token provided")
      ∧ (∀ body sheet, signupEndpoint verify header body sheet
          = (.err 401 "No token provided", sheet)))
    ∧ (∀ tok, extractToken header = some tok → verify tok = none →
      verifyTokenEndpoint verify header = .err 403 "Invalid token"
      ∧ (∀ now c fetch, performanceDataEndpoint verify header now c fetch
          = ⟨.err 403 "Invalid token", c, false⟩)
      ∧ (∀ fetch, tradeHistoryEndpoint verify header fetch = .err 403 "Invalid token")
      ∧ (∀ fetch, pnlDataEndpoint verify header fetch = .err 403 "Invalid token")
      ∧ (∀ fetch, walletDataEndpoint verify header fetch = .err 403 "Invalid token")
      ∧ (∀ body sheet, signupEndpoint verify header body sheet
          = (.err 403 "Invalid token", sheet))) := by
  constructor
  · intro h
    have ha : authCheck verify header = .error (401, "No token provided") := by
      unfold authCheck
      rw [h]
    refine ⟨?_, ?_, ?_, ?_, ?_, ?_⟩ <;>
      simp [verifyTokenEndpoint, performanceDataEndpoint, tradeHistoryEndpoint,
        pnlDataEndpoint, walletDataEndpoint, signupEndpoint, withAuth, ha]
  · intro tok htok hv
    have ha : authCheck verify header = .error (403, "Invalid token") := by
      unfold authCheck
      rw [htok]
      simp [hv]
    refine ⟨?_, ?_, ?_, ?_, ?_, ?_⟩ <;>
      simp [verifyTokenEndpoint, performanceDataEndpoint, tradeHistoryEndpoint,
        pnlDataEndpoint, walletDataEndpoint, signupEndpoint, withAuth, ha]

/-- C1 witness: concrete 401 and 403 responses behind the middleware. -/
theorem c1_auth_guard_witness :
    verifyTokenEndpoint (fun _ => none) none = .err 401 "No token provided"
    ∧ performanceDataEndpoint (fun _ => none) none 0 ⟨none⟩ (.error "x")
        = ⟨.err 401 "No token provided", ⟨none⟩, false⟩
    ∧ tradeHistoryEndpoint (fun _ => none) (some "Bearer x") (.ok none)
        = .err 403 "Invalid token"
    ∧ signupEndpoint (fun _ => none) (some "Bearer x") ⟨"a@b", none, none⟩ []
        = (.err 403 "Invalid token", []) := by
  refine ⟨((c1_auth_guard (fun _ => none) none).1 rfl).1,
    ((c1_auth_guard (fun _ => none) none).1 rfl).2.1 0 ⟨none⟩ (.error "x"), ?_, ?_⟩
  · exact ((c1_auth_guard (fun _ => none) (some "Bearer x")).2 "x" rfl rfl).2.2.1 (.ok none)
  · exact ((c1_auth_guard (fun _ => none) (some "Bearer x")).2 "x" rfl rfl).2.2.2.2.2
      ⟨"a@b", none, none⟩ []

/-- C1 counterexample: the first server variant registers no middleware
on its performance-data route, so a request with no Authorization header
is answered 200 with the spreadsheet cells, not 401. -/
theorem c1_counterexample :
    performanceDataV1 none
        (.ok (some [[JSVal.num 1, JSVal.num 2, JSVal.num 3, JSVal.num 4],
                    [JSVal.num 5, JSVal.num 6, JSVal.num 7, JSVal.num 8]]))
      = .ok 200
          [ ⟨"This Week PNL", JSVal.num 5, JSVal.num 1⟩,
            ⟨"Last Week PNL", JSVal.num 6, JSVal.num 2⟩,
            ⟨"Monthly PNL", JSVal.num 7, JSVal.num 3⟩,
            ⟨"Yearly PNL", JSVal.num 8, JSVal.num 4⟩ ] := rfl

/-- C2: after a successful fetch at time `t` (on a cache miss), any
request up to 30 seconds later returns the identical payload from the
cache, issues no downstream read and leaves the cache unchanged, while a
request strictly more than 30 seconds later misses and issues a fresh
downstream read. -/
theorem c2_cache_ttl (verify₁ verify₂ : String → Option DecodedToken)
    (h₁ h₂ : Option String) (u₁ u₂ : AuthUser)
    (ha₁ : authCheck verify₁ h₁ = .ok u₁) (ha₂ : authCheck verify₂ h₂ = .ok u₂)
    (t : Nat) (c : CacheState) (hmiss : cacheGet t c = none)
    (rows : List (List JSVal)) (row0 : List JSVal) (hrow : rows[0]? = some row0)
    (fetch₂ : Except String (Option (List (List JSVal)))) (t' : Nat) :
    (performanceDataEndpoint verify₁ h₁ t c (.ok (some rows))).response
        = .ok 200 (formatPerfRow row0)
    ∧ (performanceDataEndpoint verify₁ h₁ t c (.ok (some rows))).downstreamCalled = true
    ∧ (t' ≤ t + 30 →
        (performanceDataEndpoint verify₂ h₂ t'
            (performanceDataEndpoint verify₁ h₁ t c (.ok (some rows))).cacheAfter
            fetch₂).response
          = (performanceDataEndpoint verify₁ h₁ t c (.ok (some rows))).response
        ∧ (performanceDataEndpoint verify₂ h₂ t'
            (performanceDataEndpoint verify₁ h₁ t c (.ok (some rows))).cacheAfter
            fetch₂).downstreamCalled = false
        ∧ (performanceDataEndpoint verify₂ h₂ t'
            (performanceDataEndpoint verify₁ h₁ t c (.ok (some rows))).cacheAfter
            fetch₂).cacheAfter
          = (performanceDataEndpoint verify₁ h₁ t c (.ok (some rows))).cacheAfter)
    ∧ (t + 30 < t' →
        (performanceDataEndpoint verify₂ h₂ t'
            (performanceDataEndpoint verify₁ h₁ t c (.ok (some rows))).cacheAfter
            fetch₂).downstreamCalled = true) := by
  have E₁ : performanceDataEndpoint verify₁ h₁ t c (.ok (some rows))
      = ⟨.ok 200 (formatPerfRow row0), cacheSet t (formatPerfRow row0) 30 c, true⟩ := by
    unfold performanceDataEndpoint
    rw [ha₁, performanceDataCore_success t c hmiss rows row0 hrow]
  refine ⟨by rw [E₁], by rw [E₁], ?_, ?_⟩
  · intro hle
    have hhit : cacheGet t' (cacheSet t (formatPerfRow row0) 30 c)
        = some (formatPerfRow row0) := by
      rw [cacheGet_cacheSet]
      simp
      omega
    have E₂ : performanceDataEndpoint verify₂ h₂ t'
        (cacheSet t (formatPerfRow row0) 30 c) fetch₂
        = ⟨.ok 200 (formatPerfRow row0), cacheSet t (formatPerfRow row0) 30 c, false⟩ := by
      unfold performanceDataEndpoint
      rw [ha₂, performanceDataCore_hit t' _ _ hhit]
    rw [E₁]
    exact ⟨by rw [E₂], by rw [E₂], by rw [E₂]⟩
  · intro hgt
    have hmiss₂ : cacheGet t' (cacheSet t (formatPerfRow row0) 30 c) = none := by
      rw [cacheGet_cacheSet]
      simp
      omega
    rw [E₁]
    show (performanceDataEndpoint verify₂ h₂ t'
      (cacheSet t (formatPerfRow row0) 30 c) fetch₂).downstreamCalled = true
    unfold performanceDataEndpoint
    rw [ha₂]
    exact performanceDataCore_miss_downstream t' _ fetch₂ hmiss₂

/-- C2 witness: a concrete success at t = 0, a hit at t = 10 with a
failing fetch left untouched, and a fresh read at t = 31. -/
theorem c2_cache_ttl_witness :
    (performanceDataEndpoint demoVerify demoHeader 0 ⟨none⟩
        (.ok (some [[JSVal.num 1]]))).response = .ok 200 (formatPerfRow [JSVal.num 1])
    ∧ (performanceDataEndpoint demoVerify demoHeader 10
        (performanceDataEndpoint demoVerify demoHeader 0 ⟨none⟩
          (.ok (some [[JSVal.num 1]]))).cacheAfter (.error "x")).response
        = (performanceDataEndpoint demoVerify demoHeader 0 ⟨none⟩
          (.ok (some [[JSVal.num 1]]))).response
    ∧ (performanceDataEndpoint demoVerify demoHeader 10
        (performanceDataEndpoint demoVerify demoHeader 0 ⟨none⟩
          (.ok (some [[JSVal.num 1]]))).cacheAfter (.error "x")).downstreamCalled = false
    ∧ (performanceDataEndpoint demoVerify demoHeader 31
        (performanceDataEndpoint demoVerify demoHeader 0 ⟨none⟩
          (.ok (some [[JSVal.num 1]]))).cacheAfter (.error "x")).downstreamCalled = true := by
  refine ⟨(c2_cache_ttl demoVerify demoVerify demoHeader demoHeader demoUser demoUser
      rfl rfl 0 ⟨none⟩ rfl [[JSVal.num 1]] [JSVal.num 1] rfl (.error "x") 10).1, ?_, ?_, ?_⟩
  · exact ((c2_cache_ttl demoVerify demoVerify demoHeader demoHeader demoUser demoUser
      rfl rfl 0 ⟨none⟩ rfl [[JSVal.num 1]] [JSVal.num 1] rfl (.error "x") 10).2.2.1
        (by omega)).1
  · exact ((c2_cache_ttl demoVerify demoVerify demoHeader demoHeader demoUser demoUser
      rfl rfl 0 ⟨none⟩ rfl [[JSVal.num 1]] [JSVal.num 1] rfl (.error "x") 10).2.2.1
        (by omega)).2.1
  · exact (c2_cache_ttl demoVerify demoVerify demoHeader demoHeader demoUser demoUser
      rfl rfl 0 ⟨none⟩ rfl [[JSVal.num 1]] [JSVal.num 1] rfl (.error "x") 31).2.2.2
        (by omega)

/-- C3 (amended): when the downstream read actually fails, the catch
block's cache lookup necessarily misses — a read is only issued when the
first lookup already missed, on the same state and clock — so an error
response (500 with the thrown message) is returned; in particular the
value cached by an earlier successful fetch has always expired by then.
The cached-value branch of the catch block could only serve a value
written into the cache between the miss and the failure, which a single
sequential request never does. -/
theorem c3_stale_on_error (now : Nat) (c : CacheState) (msg : String) :
    ((performanceDataCore now c (.error msg)).downstreamCalled = true →
      cacheGet now c = none
      ∧ (performanceDataCore now c (.error msg)).response
          = .err 500 (if msg = "" then "Failed to fetch performance data" else msg))
    ∧ (cacheGet now c = none →
      (performanceDataCore now c (.error msg)).response
        = .err 500 (if msg = "" then "Failed to fetch performance data" else msg)) := by
  constructor
  · intro hd
    rcases hg : cacheGet now c with _ | v
    · exact ⟨rfl, by rw [performanceDataCore_error now c msg hg]⟩
    · rw [performanceDataCore_hit now c v hg (.error msg)] at hd
      exact absurd hd (by simp)
  · intro hg
    rw [performanceDataCore_error now c msg hg]

/-- C3 witness: a concrete failing read on an expired cache entry. -/
theorem c3_stale_on_error_witness :
    cacheGet 40 ⟨some (formatPerfRow [JSVal.num 1], 30)⟩ = none
    ∧ (performanceDataCore 40 ⟨some (formatPerfRow [JSVal.num 1], 30)⟩
        (.error "boom")).response = .err 500 "boom" := by
  refine ⟨rfl, ?_⟩
  exact (c3_stale_on_error 40 ⟨some (formatPerfRow [JSVal.num 1], 30)⟩ "boom").2 rfl

/-- C3 counterexample: a success at t = 0 populates the cache; the next
read can only happen after the entry expired, so when a failing fetch
occurs at t = 40 — after that prior successful fetch — the endpoint
answers the 500 error instead of the previously cached value, refuting
the claimed stale-on-error fallback. -/
theorem c3_counterexample :
    (performanceDataEndpoint demoVerify demoHeader 0 ⟨none⟩
        (.ok (some [[JSVal.num 1]]))).response = .ok 200 (formatPerfRow [JSVal.num 1])
    ∧ (performanceDataEndpoint demoVerify demoHeader 40
        (performanceDataEndpoint demoVerify demoHeader 0 ⟨none⟩
          (.ok (some [[JSVal.num 1]]))).cacheAfter (.error "boom")).downstreamCalled = true
    ∧ (performanceDataEndpoint demoVerify demoHeader 40
        (performanceDataEndpoint demoVerify demoHeader 0 ⟨none⟩
          (.ok (some [[JSVal.num 1]]))).cacheAfter (.error "boom")).response
        = .err 500 "boom" := ⟨rfl, rfl, rfl⟩

/-! ## Upsert and wallet lemmas -/

/-- A matching row makes the upsert a no-op. -/
theorem upsert_existing (u : UpsertInput) (s : List (List JSVal))
    (h : ∃ row ∈ s, emailMatches u.email row = true) :
    updateUserBalanceSheet u s = s := by
  unfold updateUserBalanceSheet
  rcases hf : s.findIdx? (emailMatches u.email) with _ | i
  · rw [List.findIdx?_eq_none_iff] at hf
    obtain ⟨row, hmem, hm⟩ := h
    exact absurd (hf row hmem) (by simp [hm])
  · rfl

/-- No matching row makes the upsert an append of the fresh row. -/
theorem upsert_absent (u : UpsertInput) (s : List (List JSVal))
    (h : ∀ row ∈ s, emailMatches u.email row = false) :
    updateUserBalanceSheet u s = s ++ [newRow u] := by
  unfold updateUserBalanceSheet
  rw [List.findIdx?_eq_none_iff.mpr h]

/-- The fresh row carries the submitted email in its email column. -/
theorem emailMatches_newRow (u : UpsertInput) :
    emailMatches u.email (newRow u) = true := by
  simp [emailMatches, newRow, cellAt]

/-- Counting matches distributes over a single-row append. -/
theorem emailCount_append_single (e : String) (s : List (List JSVal)) (r : List JSVal) :
    emailCount e (s ++ [r])
      = emailCount e s + (if emailMatches e r = true then 1 else 0) := by
  simp [emailCount, List.filter_append]
  cases h : emailMatches e r <;> simp [h]

/-- Zero matches means no row matches. -/
theorem emailCount_eq_zero (e : String) (s : List (List JSVal)) :
    emailCount e s = 0 ↔ ∀ row ∈ s, emailMatches e row = false := by
  simp [emailCount, List.length_eq_zero, List.filter_eq_nil_iff]

/-- C4: starting from a sheet with at most one balance row for an email,
any number of upserts with that email (whatever the display name or
phone submitted each time) leaves at most one balance row for it; and an
upsert changes the sheet at all only when no existing row's email column
equals the submitted email. -/
theorem c4_upsert_at_most_one (e : String) (us : List UpsertInput)
    (hus : ∀ u ∈ us, u.email = e) (s : List (List JSVal))
    (hs : emailCount e s ≤ 1) :
    emailCount e (us.foldl (fun t u => updateUserBalanceSheet u t) s) ≤ 1
    ∧ (∀ u t, updateUserBalanceSheet u t ≠ t →
        ∀ row ∈ t, emailMatches u.email row = false) := by
  constructor
  · induction us generalizing s with
    | nil => simpa using hs
    | cons u rest ih =>
      have hu : u.email = e := hus u (by simp)
      have hrest : ∀ v ∈ rest, v.email = e := fun v hv => hus v (by simp [hv])
      have hstep : emailCount e (updateUserBalanceSheet u s) ≤ 1 := by
        rcases hf : s.findIdx? (emailMatches u.email) with _ | i
        · have happ : updateUserBalanceSheet u s = s ++ [newRow u] := by
            unfold updateUserBalanceSheet
            rw [hf]
          have hzero : emailCount e s = 0 := by
            rw [List.findIdx?_eq_none_iff] at hf
            rw [emailCount_eq_zero]
            intro row hr
            rw [← hu]
            exact hf row hr
          rw [happ, emailCount_append_single, hzero, ← hu]
          simp [emailMatches_newRow]
        · have hsame : updateUserBalanceSheet u s = s := by
            unfold updateUserBalanceSheet
            rw [hf]
          rw [hsame]
          exact hs
      simpa using ih hrest (updateUserBalanceSheet u s) hstep
  · intro u t hne row hmem
    by_contra hb
    have hmatch : emailMatches u.email row = true := by
      revert hb
      cases emailMatches u.email row <;> simp
    exact hne (upsert_existing u t ⟨row, hmem, hmatch⟩)

/-- C4 witness: two upserts of the same email on an empty sheet leave a
single balance row. -/
theorem c4_upsert_at_most_one_witness :
    emailCount "a@b"
        ([⟨some "N", "a@b", none⟩, (⟨none, "a@b", some "1"⟩ : UpsertInput)].foldl
          (fun t u => updateUserBalanceSheet u t) []) ≤ 1 := by
  exact (c4_upsert_at_most_one "a@b"
    [⟨some "N", "a@b", none⟩, ⟨none, "a@b", some "1"⟩]
    (by decide) [] (by decide)).1

/-- C8: when a balance row for the submitted email already exists, the
upsert writes nothing — the whole sheet is returned unchanged — both
when reached through signup and through Google login. -/
theorem c8_insert_only (u : UpsertInput) (s : List (List JSVal))
    (h : ∃ row ∈ s, emailMatches u.email row = true) :
    updateUserBalanceSheet u s = s
    ∧ (∀ verify header body au, authCheck verify header = Except.ok au →
        au.email = body.email → body.email = u.email →
        (signupEndpoint verify header body s).2 = s)
    ∧ (∀ verifyId mk tok d, tok ≠ "" → verifyId tok = some d → d.email = u.email →
        (googleLoginEndpoint verifyId mk (some tok) s).2 = s) := by
  refine ⟨upsert_existing u s h, ?_, ?_⟩
  · intro verify header body au hauth hmail hmail'
    unfold signupEndpoint
    rw [hauth]
    simp only [hmail, ite_not, if_pos rfl]
    simp
    exact upsert_existing ⟨body.displayName, body.email, body.phoneNumber⟩ s
      (by simpa [hmail'] using h)
  · intro verifyId mk tok d htok hv hmail
    have hred : googleLoginEndpoint verifyId mk (some tok) s
        = (.ok 200 (mk d.uid),
            updateUserBalanceSheet ⟨d.name, d.email, d.phoneNumber⟩ s) := by
      simp [googleLoginEndpoint, htok, hv]
    rw [hred]
    exact upsert_existing ⟨d.name, d.email, d.phoneNumber⟩ s (by simpa [hmail] using h)

/-- C8 witness: a sheet already holding the row for `a@b` is unchanged
by a direct upsert and by an authenticated signup for `a@b`. -/
theorem c8_insert_only_witness :
    updateUserBalanceSheet ⟨some "M", "a@b", none⟩
        [[JSVal.str "N", JSVal.str "a@b", JSVal.str "", JSVal.num 0, JSVal.num 0,
          JSVal.num 0, JSVal.num 0]]
      = [[JSVal.str "N", JSVal.str "a@b", JSVal.str "", JSVal.num 0, JSVal.num 0,
          JSVal.num 0, JSVal.num 0]]
    ∧ (signupEndpoint demoVerify demoHeader ⟨"a@b", some "M", none⟩
        [[JSVal.str "N", JSVal.str "a@b", JSVal.str "", JSVal.num 0, JSVal.num 0,
          JSVal.num 0, JSVal.num 0]]).2
      = [[JSVal.str "N", JSVal.str "a@b", JSVal.str "", JSVal.num 0, JSVal.num 0,
          JSVal.num 0, JSVal.num 0]] := by
  constructor
  · exact (c8_insert_only ⟨some "M", "a@b", none⟩ _ (by decide)).1
  · exact (c8_insert_only ⟨some "M", "a@b", none⟩ _ (by decide)).2.1
      demoVerify demoHeader ⟨"a@b", some "M", none⟩ demoUser rfl rfl rfl

/-- C7: when no balance row's email column equals the authenticated
email — including when the sheet returns no rows at all — wallet-data
answers zero balance and zero earnings. -/
theorem c7_wallet_zero_defaults (email : String) (values : Option (List (List JSVal)))
    (h : ∀ rows, values = some rows → ∀ row ∈ rows, emailMatches email row = false) :
    walletDataCore email values
      = { userEmail := email, balance := JSNum.val 0, earnings := JSNum.val 0 } := by
  rcases values with _ | rows
  · rfl
  · have hfind : rows.find? (emailMatches email) = none :=
      List.find?_eq_none.mpr (fun x hx => by simp [h rows rfl x hx])
    simp [walletDataCore, hfind, optRowCell, jsOr, JSVal.truthy, parseFloatJS]

/-- C7 witness: an email absent from a nonempty sheet and an absent
sheet both give zeros. -/
theorem c7_wallet_zero_defaults_witness :
    walletDataCore "a@b" (some [[JSVal.str "n", JSVal.str "c@d"]])
      = { userEmail := "a@b", balance := JSNum.val 0, earnings := JSNum.val 0 }
    ∧ walletDataCore "a@b" none
      = { userEmail := "a@b", balance := JSNum.val 0, earnings := JSNum.val 0 } := by
  constructor
  · exact c7_wallet_zero_defaults "a@b" (some [[JSVal.str "n", JSVal.str "c@d"]])
      (by intro rows hrows; cases hrows; decide)
  · exact c7_wallet_zero_defaults "a@b" none (by intro rows hrows; cases hrows)

/-- C10: the row appended for a new user has all four numeric fields
(deposit, pnl%, earnings, balance) equal to 0, so the first wallet-data
lookup after that first login/signup answers zero balance and zero
earnings. -/
theorem c10_first_wallet_zero (u : UpsertInput) (s : List (List JSVal))
    (h : ∀ row ∈ s, emailMatches u.email row = false) :
    cellAt (newRow u) 3 = .num 0 ∧ cellAt (newRow u) 4 = .num 0
    ∧ cellAt (newRow u) 5 = .num 0 ∧ cellAt (newRow u) 6 = .num 0
    ∧ walletDataCore u.email (some (updateUserBalanceSheet u s))
        = { userEmail := u.email, balance := JSNum.val 0, earnings := JSNum.val 0 } := by
  refine ⟨rfl, rfl, rfl, rfl, ?_⟩
  rw [upsert_absent u s h]
  have hnone : s.find? (emailMatches u.email) = none :=
    List.find?_eq_none.mpr (fun x hx => by simp [h x hx])
  have hfind : (s ++ [newRow u]).find? (emailMatches u.email) = some (newRow u) := by
    rw [List.find?_append, hnone]
    simp [emailMatches_newRow]
  simp only [walletDataCore, hfind, optRowCell]
  rfl

/-- C10 witness: first signup of `a@b` on an empty sheet, then its
wallet lookup. -/
theorem c10_first_wallet_zero_witness :
    walletDataCore "a@b" (some (updateUserBalanceSheet ⟨some "N", "a@b", none⟩ []))
      = { userEmail := "a@b", balance := JSNum.val 0, earnings := JSNum.val 0 } :=
  (c10_first_wallet_zero ⟨some "N", "a@b", none⟩ [] (by decide)).2.2.2.2

/-! ## Trade-history and pnl-data lemmas -/

/-- The `|| dflt` fallback guarantees a nonempty result whenever the
default is nonempty. -/
theorem jsToStringOr_ne_of_ne (v : JSVal) (dflt : String) (hd : dflt ≠ "") :
    jsToStringOr v dflt ≠ "" := by
  rcases v with _ | q | s
  · exact hd
  · show (if ratToString q = "" then dflt else ratToString q) ≠ ""
    split
    · exact hd
    · assumption
  · show (if s = "" then dflt else s) ≠ ""
    split
    · exact hd
    · assumption

/-- After shaping, the validation filter only depends on the raw
timestamp cell: symbol and direction are never empty (defaults apply)
and the pnl is always a number. -/
theorem tradeKeep_shapeTrade (row : List JSVal) :
    tradeKeep (shapeTrade row) = (cellAt row 0).truthy := by
  have h₁ : ((shapeTrade row).symbol != "") = true :=
    bne_iff_ne.mpr (jsToStringOr_ne_of_ne (cellAt row 1) "GOLD" (by decide))
  have h₂ : ((shapeTrade row).direction != "") = true :=
    bne_iff_ne.mpr (jsToStringOr_ne_of_ne (cellAt row 2) "BUY" (by decide))
  unfold tradeKeep
  rw [h₁, h₂]
  simp [shapeTrade]

/-- C5 (amended): the trade-history pipeline keeps exactly the rows that
have at least 4 cells AND a truthy first (timestamp) cell — a row with
enough cells but a missing, empty-string or zero timestamp is dropped
too — and returns the shaped survivors in reversed (most recent first)
order. -/
theorem c5_trade_pipeline (values : Option (List (List JSVal))) :
    tradeHistoryCore values
      = (((values.getD []).filter
            (fun r => decide (r.length ≥ 4) && (cellAt r 0).truthy)).map shapeTrade).reverse := by
  rcases values with _ | rows
  · rfl
  · show ((((rows.filter (fun r => r.length ≥ 4)).map shapeTrade).filter tradeKeep)).reverse = _
    rw [List.filter_map, List.filter_filter]
    congr 2
    apply List.filter_congr
    intro r _
    simp [Function.comp, tradeKeep_shapeTrade, Bool.and_comm]

/-- C5 counterexample: a row with the required 4 cells but an empty
timestamp cell survives the length filter yet is dropped by the
validation filter, so the endpoint returns no trade for it — the claim
predicts it would be returned. -/
theorem c5_counterexample :
    tradeHistoryCore
        (some [[JSVal.str "", JSVal.str "EURUSD", JSVal.str "BUY", JSVal.num 1]]) = []
    ∧ ([[JSVal.str "", JSVal.str "EURUSD", JSVal.str "BUY", JSVal.num 1]].filter
        (fun r : List JSVal => decide (r.length ≥ 4)))
      = [[JSVal.str "", JSVal.str "EURUSD", JSVal.str "BUY", JSVal.num 1]] := by
  constructor
  · rfl
  · rfl

/-- Rendering a natural number never produces the empty character
list. -/
theorem natToDigitsAux_ne_nil (fuel n : Nat) : natToDigitsAux (fuel + 1) n ≠ [] := by
  unfold natToDigitsAux
  split
  · simp
  · simp

/-- `natToDigits` is nonempty. -/
theorem natToDigits_ne_nil (n : Nat) : natToDigits n ≠ [] :=
  natToDigitsAux_ne_nil n n

/-- Digit characters of values below 10 satisfy `Char.isDigit`. -/
theorem natDigitChar_isDigit (n : Nat) (h : n < 10) :
    (natDigitChar n).isDigit = true := by
  interval_cases n <;> decide

/-- Any string assembled as sign ++ digits ++ "." ++ two digit
characters is in two-decimal format. -/
theorem twoDecimalFormat_assembled (sgn : List Char) (m k : Nat) :
    twoDecimalFormat (String.mk (sgn ++ natToDigits m ++ '.' :: padTwoDigits k)) = true := by
  obtain ⟨c, cs, hc⟩ := List.exists_cons_of_ne_nil
    (fun hrev => natToDigits_ne_nil m (by simpa using congrArg List.reverse hrev) :
      (natToDigits m).reverse ≠ [])
  unfold twoDecimalFormat padTwoDigits
  show (match (sgn ++ natToDigits m ++ '.' :: padTwoDigits k).reverse with
    | d0 :: d1 :: '.' :: _ :: _ => d0.isDigit && d1.isDigit
    | _ => false) = true
  rw [List.reverse_append, List.reverse_append]
  simp only [padTwoDigits, List.reverse_cons, List.reverse_nil, List.nil_append,
    List.append_assoc, List.cons_append, List.singleton_append]
  rw [hc]
  simp [natDigitChar_isDigit _ (Nat.mod_lt _ (by omega)),
    natDigitChar_isDigit (k / 10 % 10) (Nat.mod_lt _ (by omega))]

/-- Every finite value of magnitude below 10^21 printed by `toFixed(2)`
is in two-decimal format. -/
theorem toFixed2_format (q : Rat) (h : |q| < 10 ^ 21) :
    twoDecimalFormat (toFixed2 (.val q)) = true := by
  have hx : (if q < 0 then -q else q) = |q| := by
    split
    · exact (abs_of_neg (by assumption)).symm
    · exact (abs_of_nonneg (le_of_not_lt (by assumption))).symm
  simp only [toFixed2]
  rw [hx, if_neg (not_le.mpr h)]
  exact twoDecimalFormat_assembled _ _ _

/-- C6 (amended): for the middleware-wiring variant's pnl-data
endpoint, the response is a suffix of the filtered, shaped row list of
length `min 20` its length — at most the last 20 (date, pnl) pairs —
and each pnl string is the `toFixed(2)` rendering of the parsed cell:
two-decimal format whenever the cell parses to a finite value of
magnitude below 10^21, the string `"NaN"` for a non-parsing cell, and
`"Infinity"`/`"-Infinity"` for an infinite parse.  The first variant's
pnl-data route returns one pair per fetched row — unsliced and
unformatted — so neither the 20-pair bound nor the formatting holds of
it. -/
theorem c6_pnl_last20 (values : Option (List (List JSVal))) :
    (pnlDataCore values).length ≤ 20
    ∧ (∀ rows, values = some rows →
        pnlDataCore values <:+ pnlFull rows
        ∧ (pnlDataCore values).length = min 20 (pnlFull rows).length)
    ∧ (∀ e ∈ pnlDataCore values, ∃ n,
        e.pnl = toFixed2 n
        ∧ (∀ q, n = JSNum.val q → |q| < 10 ^ 21 → twoDecimalFormat e.pnl = true)
        ∧ (n = JSNum.nan → e.pnl = "NaN")
        ∧ (∀ b, n = JSNum.inf b → e.pnl = (if b then "-Infinity" else "Infinity")))
    ∧ (∀ header sheetQuery rows out,
        pnlDataV1 header sheetQuery (.ok (some rows)) = .ok 200 out →
        out.length = rows.length) := by
  refine ⟨?_, ?_, ?_, ?_⟩
  · rcases values with _ | rows
    · simp [pnlDataCore]
    · simp only [pnlDataCore, sliceLast, List.length_drop]
      omega
  · rintro rows rfl
    constructor
    · exact List.drop_suffix _ _
    · simp only [pnlDataCore, sliceLast, List.length_drop]
      omega
  · intro e he
    rcases values with _ | rows
    · simp [pnlDataCore] at he
    · have hfull : e ∈ pnlFull rows := List.mem_of_mem_drop he
      obtain ⟨r, _, rfl⟩ := List.mem_map.mp hfull
      refine ⟨parseFloatJS (jsOr (cellAt r 3) (.num 0)), rfl, ?_, ?_, ?_⟩
      · intro q hq hlt
        show twoDecimalFormat (toFixed2 (parseFloatJS (jsOr (cellAt r 3) (.num 0)))) = true
        rw [hq]
        exact toFixed2_format q hlt
      · intro hn
        show toFixed2 (parseFloatJS (jsOr (cellAt r 3) (.num 0))) = "NaN"
        rw [hn]
        rfl
      · intro b hb
        show toFixed2 (parseFloatJS (jsOr (cellAt r 3) (.num 0)))
            = (if b then "-Infinity" else "Infinity")
        rw [hb]
        rfl
  · intro header sheetQuery rows out hout
    simp only [pnlDataV1, HttpResult.ok.injEq, true_and] at hout
    rw [← hout]
    simp

/-- C6 witness: the bound, the suffix shape, the per-entry rendering
facts at a NaN cell, and the first variant's unsliced row count, all at
concrete inputs. -/
theorem c6_pnl_last20_witness :
    (pnlDataCore (some [[JSVal.str "d", JSVal.str "x", JSVal.str "y",
        JSVal.str "abc"]])).length ≤ 20
    ∧ pnlDataCore (some [[JSVal.str "d", JSVal.str "x", JSVal.str "y", JSVal.str "abc"]])
        <:+ pnlFull [[JSVal.str "d", JSVal.str "x", JSVal.str "y", JSVal.str "abc"]]
    ∧ (∃ n, (PnlEntry.mk (JSVal.str "d") "NaN").pnl = toFixed2 n
        ∧ (∀ q, n = JSNum.val q → |q| < 10 ^ 21
            → twoDecimalFormat (PnlEntry.mk (JSVal.str "d") "NaN").pnl = true)
        ∧ (n = JSNum.nan → (PnlEntry.mk (JSVal.str "d") "NaN").pnl = "NaN")
        ∧ (∀ b, n = JSNum.inf b
            → (PnlEntry.mk (JSVal.str "d") "NaN").pnl
                = (if b then "-Infinity" else "Infinity")))
    ∧ ([(⟨JSVal.str "d", none⟩ : PnlEntryV1)]).length = [[JSVal.str "d"]].length := by
  refine ⟨(c6_pnl_last20 (some [[JSVal.str "d", JSVal.str "x", JSVal.str "y",
      JSVal.str "abc"]])).1, ?_, ?_, ?_⟩
  · exact ((c6_pnl_last20 (some [[JSVal.str "d", JSVal.str "x", JSVal.str "y",
      JSVal.str "abc"]])).2.1 [[JSVal.str "d", JSVal.str "x", JSVal.str "y",
      JSVal.str "abc"]] rfl).1
  · exact (c6_pnl_last20 (some [[JSVal.str "d", JSVal.str "x", JSVal.str "y",
      JSVal.str "abc"]])).2.2.1 ⟨JSVal.str "d", "NaN"⟩ (by decide)
  · exact (c6_pnl_last20 none).2.2.2 none none [[JSVal.str "d"]]
      [⟨JSVal.str "d", none⟩] rfl

/-- C6 counterexample: the first variant's pnl-data route (cited by the
claim's sources) returns 21 pairs for 21 fetched rows — more than "at
most the last 20" — each carrying a raw numeric pnl rather than any
formatted string; and in the middleware variant a non-numeric pnl cell
is rendered as the string `"NaN"`, which is not in two-decimal
format. -/
theorem c6_counterexample :
    pnlDataV1 none none
        (.ok (some (List.replicate 21
          [JSVal.str "d", JSVal.num 1, JSVal.num 1, JSVal.num 1])))
      = .ok 200 (List.replicate 21 ⟨JSVal.str "d", some (JSNum.val 1)⟩)
    ∧ (List.replicate 21 (⟨JSVal.str "d", some (JSNum.val 1)⟩ : PnlEntryV1)).length = 21
    ∧ pnlDataCore (some [[JSVal.str "d", JSVal.str "x", JSVal.str "y", JSVal.str "abc"]])
      = [⟨JSVal.str "d", "NaN"⟩]
    ∧ twoDecimalFormat "NaN" = false := by
  refine ⟨?_, rfl, rfl, rfl⟩
  rfl

/-- C9: the response shaping of trade-history and wallet-data is total
over loosely typed cells: a missing or non-parsing pnl cell shapes to 0,
missing symbol/direction cells shape to the `'GOLD'`/`'BUY'` defaults,
and missing balance/earnings cells (short or absent rows) shape to 0 —
no coercion error is ever propagated. -/
theorem c9_coercion_defaults :
    (∀ row, cellAt row 3 = JSVal.undefined → (shapeTrade row).pnl = JSNum.val 0)
    ∧ (∀ row s, cellAt row 3 = JSVal.str s → parseFloatString s = JSNum.nan →
        (shapeTrade row).pnl = JSNum.val 0)
    ∧ (∀ row, cellAt row 1 = JSVal.undefined → (shapeTrade row).symbol = "GOLD")
    ∧ (∀ row, cellAt row 2 = JSVal.undefined → (shapeTrade row).direction = "BUY")
    ∧ (∀ email rows r, rows.find? (emailMatches email) = some r →
        (cellAt r 6 = JSVal.undefined →
          (walletDataCore email (some rows)).balance = JSNum.val 0)
        ∧ (cellAt r 5 = JSVal.undefined →
          (walletDataCore email (some rows)).earnings = JSNum.val 0)) := by
  refine ⟨?_, ?_, ?_, ?_, ?_⟩
  · intro row h
    simp [shapeTrade, h, jsOr, JSVal.truthy, parseFloatJS]
  · intro row s h hparse
    simp only [shapeTrade, h, jsOr, JSVal.truthy]
    rcases hs : (s == "") with _ | _
    · have : s ≠ "" := by simpa using hs
      simp [this, parseFloatJS, hparse]
    · have : s = "" := by simpa using hs
      simp [this, parseFloatJS]
  · intro row h
    simp [shapeTrade, h, jsToStringOr]
  · intro row h
    simp [shapeTrade, h, jsToStringOr]
  · intro email rows r hfind
    constructor
    · intro h
      simp [walletDataCore, hfind, optRowCell, h, jsOr, JSVal.truthy, parseFloatJS]
    · intro h
      simp [walletDataCore, hfind, optRowCell, h, jsOr, JSVal.truthy, parseFloatJS]

/-- C9 witness: each default exercised at a concrete row. -/
theorem c9_coercion_defaults_witness :
    (shapeTrade []).pnl = JSNum.val 0
    ∧ (shapeTrade [JSVal.str "t", JSVal.str "S", JSVal.str "B", JSVal.str "zz"]).pnl
        = JSNum.val 0
    ∧ (shapeTrade []).symbol = "GOLD"
    ∧ (shapeTrade []).direction = "BUY"
    ∧ (walletDataCore "a@b" (some [[JSVal.str "n", JSVal.str "a@b"]])).balance
        = JSNum.val 0 := by
  refine ⟨c9_coercion_defaults.1 [] rfl,
    c9_coercion_defaults.2.1 [JSVal.str "t", JSVal.str "S", JSVal.str "B", JSVal.str "zz"]
      "zz" rfl rfl, ?_, ?_, ?_⟩
  · exact c9_coercion_defaults.2.2.1 [] rfl
  · exact c9_coercion_defaults.2.2.2.1 [] rfl
  · exact (c9_coercion_defaults.2.2.2.2 "a@b" [[JSVal.str "n", JSVal.str "a@b"]]
      [JSVal.str "n", JSVal.str "a@b"] rfl).1 rfl

end Server
